import Mathlib

/-!
# Verification of the `MCPClient` HTTP JSON-RPC client

Shallow embedding of `server/app/mcp_client.py` (the `openclaw-vestige`
variant, which carries the stale-session retry in `call_tool` and the
session check in `ensure_connected`; the top-level `server` copy is an
earlier evolution of the same file and shares every routine modelled here
except those two).

Modelling conventions:
* JSON values are the inductive `J` (a mutual family so that all recursion
  stays structural and kernel-reducible).  Python `dict.get(k)` returning
  `None` and a JSON `null` value are both `J.null`.
* `httpx` is the network boundary: one HTTP round trip is an `HttpOutcome`
  (connection refused / timed out / a response with status, headers and
  body).  `response.json()` is the `jsonBody` field (`none` = the body did
  not parse as JSON); `response.text` is the `text` field.
* `json.loads` is an explicit parameter `parse : String → Option J`
  (`none` = `json.JSONDecodeError`).
* `time.monotonic()` is an explicit rational `now` argument.
* Python `str.splitlines` is modelled as splitting on `'\n'` (the only
  separator relevant to SSE bodies; a preceding `'\r'` is removed by the
  subsequent `strip`), `str.strip` trims ASCII whitespace, and `str.lower`
  maps `Char.toLower` over the characters.
* Logging calls are dropped; they do not affect state or results.
-/

/-! ## Python-style string primitives (structural, kernel-reducible) -/

/-- Python `str.strip()` on a character list: drop leading and trailing
whitespace. -/
def pyStripL (cs : List Char) : List Char :=
  ((cs.dropWhile Char.isWhitespace).reverse.dropWhile Char.isWhitespace).reverse

/-- Python `str.strip()`. -/
def pyStrip (s : String) : String := String.mk (pyStripL s.data)

/-- Python `str.lower()` (ASCII). -/
def pyLower (s : String) : String := String.mk (s.data.map Char.toLower)

/-- Substring test on character lists, used for Python `needle in haystack`. -/
def hasSubstringL (needle : List Char) : List Char → Bool
  | [] => needle.isEmpty
  | c :: rest => needle.isPrefixOf (c :: rest) || hasSubstringL needle rest

/-- Python `needle in haystack` for strings. -/
def pyIn (needle haystack : String) : Bool := hasSubstringL needle.data haystack.data

/-- Python `text[:n]`. -/
def strTake (s : String) (n : Nat) : String := String.mk (s.data.take n)

/-- Python `str.splitlines()`, modelled as splitting on newline. -/
def pyLines (s : String) : List String :=
  (s.data.splitOn '\n').map (fun cs => String.mk cs)

/-! ## JSON values -/

mutual
/-- A JSON value (mutual with its list and object spines so that all
recursion over it is structural). -/
inductive J where
  | null
  | bool (b : Bool)
  | num (n : Int)
  | str (s : String)
  | arr (xs : JList)
  | obj (kvs : JObj)
/-- Spine of a JSON array. -/
inductive JList where
  | nil
  | cons (hd : J) (tl : JList)
/-- Spine of a JSON object: ordered key/value pairs. -/
inductive JObj where
  | nil
  | cons (k : String) (v : J) (tl : JObj)
end

mutual
/-- Structural equality of JSON values (Python `==` on decoded JSON). -/
def J.beq : J → J → Bool
  | .null, .null => true
  | .bool a, .bool b => a == b
  | .num a, .num b => a == b
  | .str a, .str b => a == b
  | .arr a, .arr b => JList.beq a b
  | .obj a, .obj b => JObj.beq a b
  | _, _ => false
/-- Equality of array spines. -/
def JList.beq : JList → JList → Bool
  | .nil, .nil => true
  | .cons a as, .cons b bs => J.beq a b && JList.beq as bs
  | _, _ => false
/-- Equality of object spines. -/
def JObj.beq : JObj → JObj → Bool
  | .nil, .nil => true
  | .cons k v as, .cons k2 v2 bs => k == k2 && J.beq v v2 && JObj.beq as bs
  | _, _ => false
end

/-- Build an array spine from a Lean list. -/
def JList.ofList : List J → JList
  | [] => .nil
  | x :: xs => .cons x (JList.ofList xs)

/-- View an array spine as a Lean list. -/
def JList.toList : JList → List J
  | .nil => []
  | .cons x xs => x :: JList.toList xs

/-- Build an object spine from a Lean association list. -/
def JObj.ofList : List (String × J) → JObj
  | [] => .nil
  | (k, v) :: kvs => .cons k v (JObj.ofList kvs)

/-- JSON array literal helper. -/
def jarr (xs : List J) : J := J.arr (JList.ofList xs)

/-- JSON object literal helper. -/
def jobj (kvs : List (String × J)) : J := J.obj (JObj.ofList kvs)

/-- First value bound to a key in an object spine (Python dict lookup;
duplicate keys cannot arise from decoded JSON). -/
def JObj.lookup : JObj → String → Option J
  | .nil, _ => none
  | .cons k v tl, key => if k == key then some v else JObj.lookup tl key

/-- Python `d.get(k, default)`: the default is used only when the key is
absent (a key bound to JSON `null` yields `J.null`, not the default). -/
def pyGetD (j : J) (k : String) (d : J) : J :=
  match j with
  | .obj kvs =>
    match kvs.lookup k with
    | some v => v
    | none => d
  | _ => d

/-- Python `d.get(k)`: absent key and JSON `null` both give `J.null`
(Python `None`). -/
def pyGet (j : J) (k : String) : J := pyGetD j k J.null

/-- Python `k in d` (key membership, regardless of the bound value). -/
def hasKey (j : J) (k : String) : Bool :=
  match j with
  | .obj kvs => (kvs.lookup k).isSome
  | _ => false

/-- Python truthiness of a decoded JSON value. -/
def truthy : J → Bool
  | .null => false
  | .bool b => b
  | .num n => n != 0
  | .str s => s != ""
  | .arr .nil => false
  | .arr _ => true
  | .obj .nil => false
  | .obj _ => true

mutual
/-- Python `repr()` of a decoded JSON value (string escaping inside quotes
is not reproduced; no claim depends on it). -/
def pyRepr : J → String
  | .null => "None"
  | .bool true => "True"
  | .bool false => "False"
  | .num n => toString n
  | .str s => "\x27" ++ s ++ "\x27"
  | .arr xs => "[" ++ pyReprList xs ++ "]"
  | .obj kvs => "\x7b" ++ pyReprObj kvs ++ "\x7d"
/-- Comma-separated reprs of an array spine. -/
def pyReprList : JList → String
  | .nil => ""
  | .cons x tl =>
    match tl with
    | .nil => pyRepr x
    | _ => pyRepr x ++ ", " ++ pyReprList tl
/-- Comma-separated reprs of an object spine. -/
def pyReprObj : JObj → String
  | .nil => ""
  | .cons k v tl =>
    match tl with
    | .nil => "\x27" ++ k ++ "\x27: " ++ pyRepr v
    | _ => "\x27" ++ k ++ "\x27: " ++ pyRepr v ++ ", " ++ pyReprObj tl
end

/-- Python `str()` as used in f-string interpolation. -/
def pyStr : J → String
  | .str s => s
  | v => pyRepr v

/-! ## Error taxonomy

`mcp_client.py` defines `MCPError` with subclasses `MCPConnectionError` and
`MCPToolError`; there is no timeout subclass.  `connection` is
`MCPConnectionError`, `tool` is `MCPToolError`, and `protocol` is a plain
`MCPError` (invalid protocol content, non-2xx status, JSON-RPC error
object).  `except MCPError` in the source catches all three kinds. -/

inductive MCPErr where
  | connection (msg : String)
  | protocol (msg : String)
  | tool (msg : String)
  deriving DecidableEq, Repr

/-- Python `str(exc)`: the message the exception was constructed with. -/
def MCPErr.message : MCPErr → String
  | .connection m => m
  | .protocol m => m
  | .tool m => m

/-! ## SSE frame extraction — `MCPClient._parse_sse_json` -/

/-- One iteration of the `for line in text.splitlines()` loop body of
`_parse_sse_json`: strip the line, require the `data:` prefix, strip the
payload after the prefix, require it nonempty, and `json.loads` it
(`none` both for non-contributing lines and for `json.JSONDecodeError`,
which the source `continue`s past). -/
def frameOf (parse : String → Option J) (line : String) : Option J :=
  let l := pyStripL line.data
  if "data:".data.isPrefixOf l then
    let payload := pyStripL (l.drop 5)
    if payload.isEmpty then none
    else parse (String.mk payload)
  else none

/-- The `results` list accumulated by `_parse_sse_json`'s loop. -/
def collectFrames (parse : String → Option J) : List String → List J
  | [] => []
  | line :: rest =>
    match frameOf parse line with
    | some v => v :: collectFrames parse rest
    | none => collectFrames parse rest

/-- `MCPClient._parse_sse_json`: one frame is returned as-is, several are
returned as a Python list (here a JSON array, exactly as the caller's
`isinstance(data, list)` check then sees it), none gives `None`. -/
def parseSseJson (parse : String → Option J) (text : String) : Option J :=
  match collectFrames parse (pyLines text) with
  | [] => none
  | [x] => some x
  | xs => some (jarr xs)

/-! ## Batch demultiplexing — `_post_jsonrpc` batch handling -/

/-- `item.get("id") == msg.get("id")` for one batch element. -/
def idMatches (msgId : J) (item : J) : Bool := J.beq (pyGet item "id") msgId

/-- `"result" in item` for one batch element. -/
def hasResult (item : J) : Bool := hasKey item "result"

/-- The batch arm of `_post_jsonrpc`: first element whose `id` equals the
request id; else the first element carrying a `"result"` key; else a
protocol error. -/
def batchSelect (items : List J) (msgId : J) : Except MCPErr J :=
  match items.find? (idMatches msgId) with
  | some item => .ok item
  | none =>
    match items.find? hasResult with
    | some item => .ok item
    | none => .error (.protocol ("No matching response in batch: " ++ pyStr (jarr items)))

/-! ## HTTP boundary and client state -/

/-- A delivered HTTP response, as seen through `httpx`:
`sessionHeader` is `response.headers.get("mcp-session-id")`,
`contentType` is `response.headers.get("content-type", "")`,
`jsonBody` is the result of `response.json()` (`none` = it raised),
`text` is `response.text`. -/
structure HttpResp where
  status : Nat
  sessionHeader : Option String
  contentType : String
  jsonBody : Option J
  text : String

/-- Outcome of one `httpx` POST: `httpx.ConnectError`,
`httpx.TimeoutException`, or a delivered response. -/
inductive HttpOutcome where
  | refused
  | timedOut
  | resp (r : HttpResp)

/-- The mutable fields of `MCPClient`.  `hasClient` is
`self._client is not None`, `toolsCaps` is `self._tools`, `toolNames` is
`self._available_tool_names`. -/
structure St where
  url : String
  transport : String
  reqId : Nat
  hasClient : Bool
  connected : Bool
  connectedAt : ℚ
  sessionId : Option String
  toolsCaps : J
  toolNames : List String

/-- `MCPClient.__init__` field values. -/
def initState (url transport : String) : St :=
  { url := url, transport := transport, reqId := 0, hasClient := false,
    connected := false, connectedAt := 0, sessionId := none,
    toolsCaps := jarr [], toolNames := [] }

/-- `MCPClient.alive`: `self._connected and self._client is not None`. -/
def alive (st : St) : Bool := st.connected && st.hasClient

/-- `MCPClient.uptime`:
`time.monotonic() - self._connected_at if self._connected_at else 0.0`. -/
def uptime (now : ℚ) (st : St) : ℚ :=
  if st.connectedAt ≠ 0 then now - st.connectedAt else 0

/-- `MCPClient.disconnect`: close and drop the HTTP client, clear the
connected flag and the session id.  `_connected_at` is not touched. -/
def disconnect (st : St) : St :=
  { st with hasClient := false, connected := false, sessionId := none }

/-- `MCPClient._request_url`: in `sse` mode replace a trailing `/sse` of the
rstripped URL with `/message` (else append `/message`); otherwise the URL
itself. -/
def requestUrl (st : St) : String :=
  if st.transport == "sse" then
    let base := (st.url.data.reverse.dropWhile (fun c => c == '/')).reverse
    if "/sse".data.isSuffixOf base then
      String.mk (base.take (base.length - 4)) ++ "/message"
    else
      String.mk base ++ "/message"
  else st.url

/-- The `Mcp-Session-Id` request header attached by `_post_jsonrpc` /
`_post_jsonrpc_notification`: the held token, if truthy
(`if self._session_id:`). -/
def requestSessionHeader (st : St) : Option String :=
  match st.sessionId with
  | some s => if s != "" then some s else none
  | none => none

/-- Adoption of a response's `mcp-session-id` header:
`if session_id: self._session_id = session_id` (a falsy — absent or
empty — header value is ignored). -/
def captureSession (st : St) (h : Option String) : St :=
  match h with
  | some sid => if sid != "" then { st with sessionId := some sid } else st
  | none => st

/-- `httpx.Response.raise_for_status` raises unless the status is a 2xx
success. -/
def is2xx (status : Nat) : Bool := decide (200 ≤ status ∧ status < 300)

/-! ## `_post_jsonrpc` -/

/-- Body decoding of `_post_jsonrpc`: SSE extraction when the content type
declares an event stream, else `response.json()` with SSE extraction as a
fallback when that raises. -/
def decodeBody (parse : String → Option J) (r : HttpResp) : Except MCPErr J :=
  if pyIn "text/event-stream" r.contentType then
    match parseSseJson parse r.text with
    | some d => .ok d
    | none => .error (.protocol ("No JSON data found in SSE response: " ++ strTake r.text 200))
  else
    match r.jsonBody with
    | some d => .ok d
    | none =>
      match parseSseJson parse r.text with
      | some d => .ok d
      | none => .error (.protocol ("Invalid JSON from Vestige: " ++ strTake r.text 200))

/-- Tail of `_post_jsonrpc` after demultiplexing: a JSON-RPC `error` member
raises a protocol error built from its `code` and `message`; otherwise the
`result` member (defaulting to an empty object) is returned. -/
def finishJsonrpc (d : J) : Except MCPErr J :=
  if hasKey d "error" then
    let err := pyGet d "error"
    .error (.protocol ("MCP error " ++ pyStr (pyGet err "code") ++ ": " ++ pyStr (pyGet err "message")))
  else .ok (pyGetD d "result" (jobj []))

/-- `MCPClient._post_jsonrpc`.  The exception text appended after the URL in
the two transport-error messages (`f"...: {exc}"`) comes from `httpx` and is
not modelled. -/
def postJsonrpc (parse : String → Option J) (st : St) (msg : J) (out : HttpOutcome) :
    St × Except MCPErr J :=
  if !st.hasClient then
    (st, .error (.connection "HTTP client not initialized — call connect() first"))
  else
    match out with
    | .refused =>
      ({ st with connected := false },
       .error (.connection ("Cannot reach Vestige at " ++ requestUrl st)))
    | .timedOut =>
      (st, .error (.connection ("Timeout communicating with Vestige at " ++ requestUrl st)))
    | .resp r =>
      if !is2xx r.status then
        (st, .error (.protocol ("Vestige returned HTTP " ++ toString r.status ++ ": " ++ r.text)))
      else
        let st := captureSession st r.sessionHeader
        match decodeBody parse r with
        | .error e => (st, .error e)
        | .ok data =>
          let sel : Except MCPErr J :=
            match data with
            | .arr items => batchSelect items.toList (pyGet msg "id")
            | d => .ok d
          match sel with
          | .error e => (st, .error e)
          | .ok d => (st, finishJsonrpc d)

/-- `MCPClient._post_jsonrpc_notification`: captures a truthy session header
unconditionally, never raises on a non-2xx status (it only logs), and maps
the two `httpx` transport exceptions like `_post_jsonrpc` does (the
notification's method and params do not influence the modelled state). -/
def postNotif (st : St) (out : HttpOutcome) : St × Except MCPErr Unit :=
  if !st.hasClient then
    (st, .error (.connection "HTTP client not initialized — call connect() first"))
  else
    match out with
    | .refused =>
      ({ st with connected := false },
       .error (.connection ("Cannot reach Vestige at " ++ requestUrl st)))
    | .timedOut =>
      (st, .error (.connection "Timeout sending notification to Vestige"))
    | .resp r =>
      (captureSession st r.sessionHeader, .ok ())

/-- `MCPClient._send`: allocate the next request id and post the JSON-RPC
request object. -/
def sendReq (parse : String → Option J) (st : St) (method : String) (params : J)
    (out : HttpOutcome) : St × Except MCPErr J :=
  let rid := st.reqId + 1
  let st := { st with reqId := rid }
  let msg := jobj [("jsonrpc", .str "2.0"), ("id", .num (Int.ofNat rid)),
                   ("method", .str method), ("params", params)]
  postJsonrpc parse st msg out

/-! ## Lifecycle — `connect`, `ensure_connected` -/

/-- The `initialize` params sent by `connect`. -/
def initializeParams : J :=
  jobj [("protocolVersion", .str "2025-03-26"),
        ("capabilities", jobj []),
        ("clientInfo", jobj [("name", .str "openclaw-vestige-bridge"),
                             ("version", .str "0.2.0")])]

/-- `_discover_tools` body: `[t.get("name", "") for t in resp.get("tools", [])]`. -/
def extractToolNames (resp : J) : List String :=
  match pyGetD resp "tools" (jarr []) with
  | .arr ts => ts.toList.map (fun t => pyStr (pyGetD t "name" (.str "")))
  | _ => []

/-- Network outcomes for the three round trips a `connect()` performs:
`initialize`, the `notifications/initialized` notification, and
`tools/list`. -/
structure ConnOuts where
  initOut : HttpOutcome
  initedOut : HttpOutcome
  listOut : HttpOutcome

/-- `MCPClient.connect`: allocate the HTTP client, run the `initialize`
handshake, send the `initialized` notification, mark connected and record
the epoch, then discover tools — a failing `tools/list` is non-fatal and
leaves the catalog empty (`_discover_tools` catches `MCPError`). -/
def connect (parse : String → Option J) (now : ℚ) (o : ConnOuts) (st : St) :
    St × Except MCPErr Unit :=
  let st := { st with hasClient := true }
  match sendReq parse st "initialize" initializeParams o.initOut with
  | (st, .error e) => (st, .error e)
  | (st, .ok resp) =>
    let st := { st with
      toolsCaps := pyGetD (pyGetD resp "capabilities" (jobj [])) "tools" (jarr []) }
    match postNotif st o.initedOut with
    | (st, .error e) => (st, .error e)
    | (st, .ok _) =>
      let st := { st with connected := true, connectedAt := now }
      match sendReq parse st "tools/list" (jobj []) o.listOut with
      | (st, .ok resp) => ({ st with toolNames := extractToolNames resp }, .ok ())
      | (st, .error _) => ({ st with toolNames := [] }, .ok ())

/-- A connect attempt (`Ev.conn` records `_session_id` and `_connected` at
the moment `connect()` is entered) or an issued `tools/call` round trip
(`Ev.call` records the attached session header and the request payload). -/
inductive Ev where
  | conn (sessionBefore : Option String) (connectedBefore : Bool)
  | call (sessionHeader : Option String) (name : String) (args : J)

/-- `MCPClient.ensure_connected` (openclaw-vestige variant): connect when
not alive, and also when alive but `self._session_id is None and
self._connected`. -/
def ensureConnected (parse : String → Option J) (now : ℚ) (o : ConnOuts) (st : St) :
    St × Except MCPErr Unit × List Ev :=
  if !alive st then
    let p := connect parse now o st
    (p.1, p.2, [Ev.conn st.sessionId st.connected])
  else if st.sessionId.isNone && st.connected then
    let p := connect parse now o st
    (p.1, p.2, [Ev.conn st.sessionId st.connected])
  else
    (st, .ok (), [])

/-! ## `call_tool` -/

/-- The stale-session test of `call_tool`:
`"session" in err_msg and ("invalid" in err_msg or "not found" in err_msg
or "no valid" in err_msg)` on the lowercased `str(exc)`. -/
def staleSessionMsg (m : String) : Bool :=
  let ml := pyLower m
  pyIn "session" ml && (pyIn "invalid" ml || pyIn "not found" ml || pyIn "no valid" ml)

/-- `[c.get("text", "") for c in resp.get("content", [])]`.  A fragment
whose `text` is not a string would make the source's `" ".join` raise
`TypeError`; that corner is modelled as the empty string and is outside
every claim. -/
def contentTexts (resp : J) : List String :=
  match pyGetD resp "content" (jarr []) with
  | .arr cs => cs.toList.map (fun c =>
      match pyGetD c "text" (.str "") with
      | .str s => s
      | v => pyStr v)
  | _ => []

/-- Tail of `call_tool` on a protocol-level success: `isError` truthiness
raises `MCPToolError` with the space-joined fragment texts, else the
`content` member (defaulting to `[]`) is wrapped as `{"content": ...}`. -/
def finalizeResp (resp : J) : Except MCPErr J :=
  if truthy (pyGet resp "isError") then
    .error (.tool (String.intercalate " " (contentTexts resp)))
  else
    .ok (jobj [("content", pyGetD resp "content" (jarr []))])

/-- Network outcomes for the round trips a `call_tool` may perform: the
`ensure_connected` phase, the first `tools/call`, the reconnect after a
stale-session error, and the retried `tools/call`. -/
structure CallOuts where
  ensureOuts : ConnOuts
  firstOut : HttpOutcome
  reconnOuts : ConnOuts
  secondOut : HttpOutcome

/-- `MCPClient.call_tool` (openclaw-vestige variant): ensure connected,
issue `tools/call`; on an `MCPError` whose message matches the
stale-session pattern, clear `_connected` and `_session_id`, reconnect,
and reissue the same request once; any other error propagates.  The third
component is the trace of connect attempts and issued `tools/call`
round trips. -/
def callTool (parse : String → Option J) (now : ℚ) (o : CallOuts) (name : String)
    (args : J) (st : St) : St × Except MCPErr J × List Ev :=
  match ensureConnected parse now o.ensureOuts st with
  | (st1, .error e, ev) => (st1, .error e, ev)
  | (st1, .ok _, ev0) =>
    let params := jobj [("name", .str name), ("arguments", args)]
    let ev1 := ev0 ++ [Ev.call (requestSessionHeader st1) name args]
    match sendReq parse st1 "tools/call" params o.firstOut with
    | (st2, .ok resp) => (st2, finalizeResp resp, ev1)
    | (st2, .error e) =>
      if staleSessionMsg e.message then
        let st3 := { st2 with connected := false, sessionId := none }
        let ev2 := ev1 ++ [Ev.conn st3.sessionId st3.connected]
        match connect parse now o.reconnOuts st3 with
        | (st4, .error e2) => (st4, .error e2, ev2)
        | (st4, .ok _) =>
          let ev3 := ev2 ++ [Ev.call (requestSessionHeader st4) name args]
          match sendReq parse st4 "tools/call" params o.secondOut with
          | (st5, .error e3) => (st5, .error e3, ev3)
          | (st5, .ok resp) => (st5, finalizeResp resp, ev3)
      else (st2, .error e, ev1)

/-! ## Concrete sample inputs used by witnesses and counterexamples -/

/-- A concrete stand-in for `json.loads` in witness scenarios: parses the
digits `1` and `2`, fails on everything else. -/
def sampleParse : String → Option J := fun s =>
  if s == "1" then some (.num 1) else if s == "2" then some (.num 2) else none

/-- A connected client holding session token `"sid0"`. -/
def stBase : St :=
  { url := "http://localhost:3100/mcp", transport := "streamable_http", reqId := 0,
    hasClient := true, connected := true, connectedAt := 1, sessionId := some "sid0",
    toolsCaps := jarr [], toolNames := [] }

/-- A concrete JSON-RPC request object with id 1. -/
def msgSample : J :=
  jobj [("jsonrpc", .str "2.0"), ("id", .num 1), ("method", .str "tools/list"),
        ("params", jobj [])]

/-- A 200 response whose body is a JSON-RPC error with message
`"No valid session"`. -/
def staleErrResp : HttpResp :=
  { status := 200, sessionHeader := none, contentType := "application/json",
    jsonBody := some (jobj [("jsonrpc", .str "2.0"), ("id", .num 1),
      ("error", jobj [("code", .num (-32000)), ("message", .str "No valid session")])]),
    text := "" }

/-- A 200 response whose body is a JSON-RPC error with message
`"Internal error"`. -/
def internalErrResp : HttpResp :=
  { status := 200, sessionHeader := none, contentType := "application/json",
    jsonBody := some (jobj [("jsonrpc", .str "2.0"), ("id", .num 1),
      ("error", jobj [("code", .num (-32603)), ("message", .str "Internal error")])]),
    text := "" }

/-- A successful JSON-RPC response carrying `result`, optionally delivering a
session header. -/
def okResp (sid : Option String) (result : J) : HttpResp :=
  { status := 200, sessionHeader := sid, contentType := "application/json",
    jsonBody := some (jobj [("jsonrpc", .str "2.0"), ("id", .num 1), ("result", result)]),
    text := "" }

/-- Network outcomes for a fully successful `connect()` that hands out
session token `"sid1"` on the `initialize` response. -/
def goodConnOuts : ConnOuts :=
  { initOut := .resp (okResp (some "sid1") (jobj [("capabilities", jobj [])])),
    initedOut := .resp { status := 202, sessionHeader := none, contentType := "",
                         jsonBody := none, text := "" },
    listOut := .resp (okResp none (jobj [("tools", jarr [])])) }

/-- A successful `tools/call` result payload. -/
def toolOkResult : J :=
  jobj [("content", jarr [jobj [("type", .str "text"), ("text", .str "ok")]])]

/-- `call_tool` network outcomes: first attempt hits a stale-session error,
reconnect succeeds, the retry succeeds. -/
def calloutsStale : CallOuts :=
  { ensureOuts := goodConnOuts, firstOut := .resp staleErrResp,
    reconnOuts := goodConnOuts, secondOut := .resp (okResp none toolOkResult) }

/-- `call_tool` network outcomes: first attempt hits a non-stale protocol
error (`"Internal error"`); the later outcomes are never consumed. -/
def calloutsPlainErr : CallOuts :=
  { ensureOuts := goodConnOuts, firstOut := .resp internalErrResp,
    reconnOuts := goodConnOuts, secondOut := .resp (okResp none toolOkResult) }

/-- A tool-level failure payload: `isError` true with fragments "a", "b". -/
def toolErrResult : J :=
  jobj [("isError", .bool true),
        ("content", jarr [jobj [("text", .str "a")], jobj [("text", .str "b")]])]

/-- `call_tool` network outcomes: the first attempt succeeds at the protocol
level with a tool-level error. -/
def calloutsToolErr : CallOuts :=
  { ensureOuts := goodConnOuts, firstOut := .resp (okResp none toolErrResult),
    reconnOuts := goodConnOuts, secondOut := .resp (okResp none toolOkResult) }

/-- `call_tool` network outcomes: the first attempt succeeds with a result
object that has no `content` member at all. -/
def calloutsNoContent : CallOuts :=
  { ensureOuts := goodConnOuts, firstOut := .resp (okResp none (jobj [])),
    reconnOuts := goodConnOuts, secondOut := .resp (okResp none toolOkResult) }

/-- A 200 response delivering an mcp-session-id header with an empty value. -/
def emptySidResp : HttpResp :=
  { status := 200, sessionHeader := some "", contentType := "application/json",
    jsonBody := some (jobj [("jsonrpc", .str "2.0"), ("id", .num 1), ("result", jobj [])]),
    text := "" }

/-- Batch element with id 2. -/
def batchA : J := jobj [("id", .num 2), ("result", jobj [("x", .num 9)])]

/-- Batch element with id 1. -/
def batchB : J := jobj [("id", .num 1), ("result", jobj [("y", .num 7)])]

/-- Batch element with neither a matching id nor a result member. -/
def batchC : J := jobj [("error", jobj [])]

/-! ## Helper lemmas -/

/-- `List.find?` returns the first element satisfying the predicate. -/
theorem findFirstOfSplit {α : Type} (p : α → Bool) (l₁ l₂ : List α) (a : α)
    (h₁ : ∀ x ∈ l₁, p x = false) (ha : p a = true) :
    (l₁ ++ a :: l₂).find? p = some a := by
  induction l₁ with
  | nil => simp [List.find?, ha]
  | cons b bs ih =>
    have hb : p b = false := h₁ b (by simp)
    simp only [List.cons_append, List.find?, hb]
    exact ih (fun x hx => h₁ x (by simp [hx]))

/-- `List.find?` finds nothing when the predicate fails everywhere. -/
theorem findNoneOfAll {α : Type} (p : α → Bool) (l : List α)
    (h : ∀ x ∈ l, p x = false) : l.find? p = none := by
  induction l with
  | nil => rfl
  | cons b bs ih =>
    have hb : p b = false := h b (by simp)
    simp only [List.find?, hb]
    exact ih (fun x hx => h x (by simp [hx]))

/-- The SSE frame loop distributes over list append. -/
theorem collectFrames_append (parse : String → Option J) (l₁ l₂ : List String) :
    collectFrames parse (l₁ ++ l₂) = collectFrames parse l₁ ++ collectFrames parse l₂ := by
  induction l₁ with
  | nil => rfl
  | cons x xs ih =>
    simp only [List.cons_append, collectFrames]
    cases frameOf parse x <;> simp [ih]

/-- Lines that contribute no frame are dropped by the SSE frame loop. -/
theorem collectFrames_nil (parse : String → Option J) (l : List String)
    (h : ∀ x ∈ l, frameOf parse x = none) : collectFrames parse l = [] := by
  induction l with
  | nil => rfl
  | cons x xs ih =>
    have hx : frameOf parse x = none := h x (by simp)
    simp only [collectFrames, hx]
    exact ih (fun y hy => h y (by simp [hy]))

/-! ## Claim theorems -/

/-- Claim C2: for a JSON-RPC batch decoded against an expected request id,
decoding selects the first element whose `id` equals the expected id; when
no element matches, the first element containing a `result` field; and when
neither exists, decoding fails with the `ProtocolError`
"no matching response in batch". -/
theorem c2_batch_decoding (items : List J) (msgId : J) :
    (∀ l₁ item l₂, items = l₁ ++ item :: l₂ →
        (∀ x ∈ l₁, idMatches msgId x = false) → idMatches msgId item = true →
        batchSelect items msgId = .ok item)
  ∧ ((∀ x ∈ items, idMatches msgId x = false) →
      ∀ l₁ item l₂, items = l₁ ++ item :: l₂ →
        (∀ x ∈ l₁, hasResult x = false) → hasResult item = true →
        batchSelect items msgId = .ok item)
  ∧ ((∀ x ∈ items, idMatches msgId x = false ∧ hasResult x = false) →
      batchSelect items msgId =
        .error (.protocol ("No matching response in batch: " ++ pyStr (jarr items)))) := by
  refine ⟨?_, ?_, ?_⟩
  · intro l₁ item l₂ heq h₁ hitem
    subst heq
    unfold batchSelect
    rw [findFirstOfSplit _ _ _ _ h₁ hitem]
  · intro hall l₁ item l₂ heq h₁ hitem
    subst heq
    unfold batchSelect
    rw [findNoneOfAll _ _ hall, findFirstOfSplit _ _ _ _ h₁ hitem]
  · intro hall
    unfold batchSelect
    rw [findNoneOfAll _ _ (fun x hx => (hall x hx).1),
        findNoneOfAll _ _ (fun x hx => (hall x hx).2)]

/-- Witness for C2: all three hypotheses are satisfiable on concrete
batches. -/
theorem c2_batch_decoding_witness :
    batchSelect [batchA, batchB] (.num 1) = .ok batchB
  ∧ batchSelect [batchC, batchA] (.num 5) = .ok batchA
  ∧ batchSelect [batchC] (.num 5) =
      .error (.protocol ("No matching response in batch: " ++ pyStr (jarr [batchC]))) := by
  refine ⟨?_, ?_, ?_⟩
  · exact (c2_batch_decoding [batchA, batchB] (.num 1)).1 [batchA] batchB []
      rfl (by decide) (by decide)
  · exact (c2_batch_decoding [batchC, batchA] (.num 5)).2.1 (by decide) [batchC] batchA []
      rfl (by decide) (by decide)
  · exact (c2_batch_decoding [batchC] (.num 5)).2.2 (by decide)

/-- Claim C3: SSE frame extraction yields nothing when no line's trimmed
form starts with `data:`; yields the single value when exactly one line
contributes a parseable payload; processes lines independently, in order
(the extracted frames are exactly the per-line frames, in line order, and
several frames are returned together as a list); and a malformed `data:`
line among valid ones is skipped without aborting extraction. -/
theorem c3_sse_frame_extraction (parse : String → Option J) :
    (∀ text, (∀ l ∈ pyLines text, "data:".data.isPrefixOf (pyStripL l.data) = false) →
        parseSseJson parse text = none)
  ∧ (∀ text l₁ d l₂ v, pyLines text = l₁ ++ d :: l₂ →
        (∀ l ∈ l₁ ++ l₂, frameOf parse l = none) → frameOf parse d = some v →
        parseSseJson parse text = some v)
  ∧ (∀ lines, collectFrames parse lines = lines.filterMap (frameOf parse))
  ∧ (∀ text, 2 ≤ (collectFrames parse (pyLines text)).length →
        parseSseJson parse text = some (jarr (collectFrames parse (pyLines text))))
  ∧ (∀ l₁ bad l₂, "data:".data.isPrefixOf (pyStripL bad.data) = true →
        parse (String.mk (pyStripL ((pyStripL bad.data).drop 5))) = none →
        collectFrames parse (l₁ ++ bad :: l₂) = collectFrames parse (l₁ ++ l₂)) := by
  refine ⟨?_, ?_, ?_, ?_, ?_⟩
  · intro text h
    have hz : ∀ l ∈ pyLines text, frameOf parse l = none := by
      intro l hl
      simp [frameOf, h l hl]
    unfold parseSseJson
    rw [collectFrames_nil parse _ hz]
  · intro text l₁ d l₂ v heq h₁ hd
    unfold parseSseJson
    rw [heq, collectFrames_append]
    rw [collectFrames_nil parse l₁ (fun x hx => h₁ x (by simp [hx]))]
    simp only [collectFrames, hd]
    rw [collectFrames_nil parse l₂ (fun x hx => h₁ x (by simp [hx]))]
    rfl
  · intro lines
    induction lines with
    | nil => rfl
    | cons x xs ih =>
      simp only [collectFrames, List.filterMap]
      cases frameOf parse x <;> simp [ih]
  · intro text hlen
    unfold parseSseJson
    rcases hc : collectFrames parse (pyLines text) with _ | ⟨x, _ | ⟨y, tl⟩⟩
    · rw [hc] at hlen; simp at hlen
    · rw [hc] at hlen; simp at hlen
    · rfl
  · intro l₁ bad l₂ hpre hparse
    have hbad : frameOf parse bad = none := by
      simp only [frameOf, hpre, if_true]
      by_cases he : (pyStripL ((pyStripL bad.data).drop 5)).isEmpty
      · simp [he]
      · simp [he, hparse]
    rw [collectFrames_append, collectFrames_append]
    simp only [collectFrames, hbad]

/-- Witness for C3: the four conditional parts are satisfiable on concrete
SSE texts (an interleaved malformed `data: oops` line is skipped). -/
theorem c3_sse_frame_extraction_witness :
    parseSseJson sampleParse "hello\nworld" = none
  ∧ parseSseJson sampleParse "event: message\ndata: 1" = some (.num 1)
  ∧ collectFrames sampleParse ["data: 1", "x", "data: 2"]
      = ["data: 1", "x", "data: 2"].filterMap (frameOf sampleParse)
  ∧ parseSseJson sampleParse "data: 1\ndata: oops\ndata: 2"
      = some (jarr [.num 1, .num 2])
  ∧ collectFrames sampleParse (["data: 1"] ++ "data: oops" :: ["data: 2"])
      = collectFrames sampleParse (["data: 1"] ++ ["data: 2"]) := by
  refine ⟨?_, ?_, ?_, ?_, ?_⟩
  · exact (c3_sse_frame_extraction sampleParse).1 "hello\nworld"
      (by intro l hl; fin_cases hl <;> rfl)
  · exact (c3_sse_frame_extraction sampleParse).2.1 "event: message\ndata: 1"
      ["event: message"] "data: 1" [] (.num 1) rfl
      (by intro l hl; fin_cases hl; rfl) rfl
  · exact (c3_sse_frame_extraction sampleParse).2.2.1 ["data: 1", "x", "data: 2"]
  · have h := (c3_sse_frame_extraction sampleParse).2.2.2.1 "data: 1\ndata: oops\ndata: 2"
      (by decide)
    exact h
  · exact (c3_sse_frame_extraction sampleParse).2.2.2.2 ["data: 1"] "data: oops" ["data: 2"]
      rfl rfl

/-- `captureSession` never touches the `_client` handle. -/
theorem captureSession_hasClient (st : St) (h : Option String) :
    (captureSession st h).hasClient = st.hasClient := by
  cases h with
  | none => rfl
  | some s =>
    by_cases hs : (s != "") = true
    · simp [captureSession, hs]
    · simp [captureSession, hs]

/-- Adopting a truthy session header overwrites the held token. -/
theorem captureSession_some (st : St) (s : String) (hs : s ≠ "") :
    captureSession st (some s) = { st with sessionId := some s } := by
  simp [captureSession, hs]

/-- In the 2xx case, the state `_post_jsonrpc` leaves behind is exactly the
input state with the response's session header adopted — whatever the body
decodes to. -/
theorem postJsonrpc_state_2xx (parse : String → Option J) (st : St) (msg : J)
    (r : HttpResp) (h : st.hasClient = true) (h2 : is2xx r.status = true) :
    (postJsonrpc parse st msg (.resp r)).1 = captureSession st r.sessionHeader := by
  unfold postJsonrpc
  rw [h]
  simp only [Bool.not_true, Bool.false_eq_true, if_false]
  rw [h2]
  simp only [Bool.not_true, Bool.false_eq_true, if_false]
  cases hdb : decodeBody parse r with
  | error e => rfl
  | ok data =>
    dsimp only
    cases data <;> try rfl
    case arr items =>
      dsimp only
      cases batchSelect items.toList (pyGet msg "id") <;> rfl

/-- Counterexample to C4 as stated: after a successful connect at time 5
followed by `disconnect`, `uptime` at time 7 is 2 — it neither resets to 0
nor becomes undefined, because `disconnect` never clears `_connected_at`. -/
theorem c4_uptime_counterexample :
    uptime 7 (disconnect (connect sampleParse 5 goodConnOuts
        (initState "http://localhost:3100/mcp" "streamable_http")).1) = 2
  ∧ (2 : ℚ) ≠ 0
  ∧ alive (disconnect (connect sampleParse 5 goodConnOuts
        (initState "http://localhost:3100/mcp" "streamable_http")).1) = false := by
  refine ⟨?_, by norm_num, rfl⟩
  have h : (disconnect (connect sampleParse 5 goodConnOuts
      (initState "http://localhost:3100/mcp" "streamable_http")).1).connectedAt = 5 := rfl
  unfold uptime
  rw [h]
  norm_num

/-- Claim C4 (amended): `uptime` is 0 before the first successful connect
and strictly increasing with time once a connect has recorded a nonzero
epoch; `disconnect` does not reset it — the epoch survives, so `uptime`
keeps measuring from the last connect. -/
theorem c4_uptime_behavior :
    (∀ (now : ℚ) u t, uptime now (initState u t) = 0)
  ∧ (∀ (st : St) (t₁ t₂ : ℚ), st.connectedAt ≠ 0 → t₁ < t₂ →
      uptime t₁ st < uptime t₂ st)
  ∧ (∀ st : St, (disconnect st).connectedAt = st.connectedAt)
  ∧ (∀ (now : ℚ) (st : St), uptime now (disconnect st) = uptime now st)
  ∧ (∀ st : St, alive (disconnect st) = false) := by
  refine ⟨?_, ?_, fun _ => rfl, fun _ _ => rfl, fun _ => rfl⟩
  · intro now u t
    simp [uptime, initState]
  · intro st t₁ t₂ hc hlt
    unfold uptime
    rw [if_pos hc, if_pos hc]
    exact sub_lt_sub_right hlt _

/-- Witness for C4 (amended): the strict-increase part at a concrete state
and pair of times. -/
theorem c4_uptime_behavior_witness :
    uptime 3 stBase < uptime 4 stBase ∧ uptime 9 (initState "u" "t") = 0 := by
  constructor
  · exact c4_uptime_behavior.2.1 stBase 3 4 (by norm_num [stBase]) (by norm_num)
  · exact c4_uptime_behavior.1 9 "u" "t"

/-- Counterexample to C5 as stated: a timed-out round trip raises the same
`MCPConnectionError` kind as a refused connection — there is no distinct
timeout error in `mcp_client.py`, so "timeout maps to TimeoutError" fails. -/
theorem c5_timeout_counterexample :
    (postJsonrpc sampleParse stBase msgSample .timedOut).2
      = .error (.connection "Timeout communicating with Vestige at http://localhost:3100/mcp")
  ∧ (postJsonrpc sampleParse stBase msgSample .refused).2
      = .error (.connection "Cannot reach Vestige at http://localhost:3100/mcp") :=
  ⟨rfl, rfl⟩

/-- Claim C5 (amended): connection refusal raises `ConnectionError`; a
timeout also raises `ConnectionError` (there is no separate timeout error
kind); a non-2xx status raises a plain `MCPError` (the `ProtocolError` of
the taxonomy) carrying the status code and response body. -/
theorem c5_http_error_mapping (parse : String → Option J) (st : St) (msg : J)
    (h : st.hasClient = true) :
    ((postJsonrpc parse st msg .refused).2
        = .error (.connection ("Cannot reach Vestige at " ++ requestUrl st)))
  ∧ ((postJsonrpc parse st msg .timedOut).2
        = .error (.connection ("Timeout communicating with Vestige at " ++ requestUrl st)))
  ∧ (∀ r : HttpResp, is2xx r.status = false →
      postJsonrpc parse st msg (.resp r)
        = (st, .error (.protocol ("Vestige returned HTTP " ++ toString r.status ++ ": " ++ r.text)))) := by
  refine ⟨?_, ?_, ?_⟩
  · unfold postJsonrpc
    rw [if_neg (by simp [h])]
  · unfold postJsonrpc
    rw [if_neg (by simp [h])]
  · intro r hr
    unfold postJsonrpc
    rw [if_neg (by simp [h])]
    dsimp only
    rw [if_pos (by simp [hr])]

/-- Witness for C5 (amended): evaluated on the concrete connected client
and a concrete 500 response. -/
theorem c5_http_error_mapping_witness :
    (postJsonrpc sampleParse stBase msgSample
        (.resp { status := 500, sessionHeader := none, contentType := "",
                 jsonBody := none, text := "boom" }))
      = (stBase, .error (.protocol "Vestige returned HTTP 500: boom")) := by
  exact (c5_http_error_mapping sampleParse stBase msgSample rfl).2.2
    { status := 500, sessionHeader := none, contentType := "", jsonBody := none, text := "boom" }
    rfl

/-- Counterexample to C6 as stated: a refused connection raises
`MCPConnectionError` and clears `_connected`, but the session token
survives (`_session_id` is not cleared); and a timeout raises
`MCPConnectionError` without clearing even the liveness flag. -/
theorem c6_connection_error_counterexample :
    (postJsonrpc sampleParse stBase msgSample .refused).1.sessionId = some "sid0"
  ∧ (some "sid0" : Option String) ≠ none
  ∧ (postJsonrpc sampleParse stBase msgSample .refused).2
      = .error (.connection "Cannot reach Vestige at http://localhost:3100/mcp")
  ∧ alive (postJsonrpc sampleParse stBase msgSample .timedOut).1 = true := by
  exact ⟨rfl, by simp, rfl, rfl⟩

/-- Claim C6 (amended): a `ConnectionError` from a refused connection clears
the liveness flag but retains the session token; a `ConnectionError` from a
timeout clears neither; the same holds on the notification path. -/
theorem c6_connection_error_state (parse : String → Option J) (st : St) (msg : J)
    (h : st.hasClient = true) :
    ((postJsonrpc parse st msg .refused).1 = { st with connected := false }
      ∧ alive (postJsonrpc parse st msg .refused).1 = false
      ∧ (postJsonrpc parse st msg .refused).1.sessionId = st.sessionId)
  ∧ ((postJsonrpc parse st msg .timedOut).1 = st)
  ∧ ((postNotif st .refused).1 = { st with connected := false }
      ∧ (postNotif st .refused).1.sessionId = st.sessionId)
  ∧ ((postNotif st .timedOut).1 = st) := by
  have h1 : (postJsonrpc parse st msg .refused).1 = { st with connected := false } := by
    unfold postJsonrpc
    rw [if_neg (by simp [h])]
  have h2 : (postNotif st .refused).1 = { st with connected := false } := by
    unfold postNotif
    rw [if_neg (by simp [h])]
  refine ⟨⟨h1, ?_, ?_⟩, ?_, ⟨h2, ?_⟩, ?_⟩
  · rw [h1]; simp [alive]
  · rw [h1]
  · unfold postJsonrpc
    rw [if_neg (by simp [h])]
  · rw [h2]
  · unfold postNotif
    rw [if_neg (by simp [h])]

/-- Witness for C6 (amended): evaluated on the concrete connected client. -/
theorem c6_connection_error_state_witness :
    (postJsonrpc sampleParse stBase msgSample .refused).1
      = { stBase with connected := false }
  ∧ (postNotif stBase .timedOut).1 = stBase := by
  exact ⟨(c6_connection_error_state sampleParse stBase msgSample rfl).1.1,
         (c6_connection_error_state sampleParse stBase msgSample rfl).2.2.2⟩

/-- Counterexample to C8 as stated: a response that carries the
`mcp-session-id` header with an empty value completes the round trip
successfully, yet the previously held token is not overwritten
(`if session_id:` skips falsy header values). -/
theorem c8_session_header_counterexample :
    (postJsonrpc sampleParse stBase msgSample (.resp emptySidResp)).1.sessionId = some "sid0"
  ∧ ((some "sid0" : Option String) ≠ some "")
  ∧ (postJsonrpc sampleParse stBase msgSample (.resp emptySidResp)).2 = .ok (jobj []) := by
  exact ⟨rfl, by simp, rfl⟩

/-- Claim C8 (amended): every request attaches the held session token (if
any) as the session header; a response delivering a nonempty
`mcp-session-id` value overwrites the held token, while a response without
one leaves it unchanged; hence after consecutive responses delivering
`"sid1"` then `"sid2"`, subsequent requests carry `"sid2"`, not `"sid1"`. -/
theorem c8_session_propagation (parse : String → Option J) (msg msg2 : J) :
    (∀ st : St, st.sessionId = none → requestSessionHeader st = none)
  ∧ (∀ (st : St) (s : String), st.sessionId = some s → s ≠ "" →
      requestSessionHeader st = some s)
  ∧ (∀ (st : St) (r : HttpResp) (s : String), st.hasClient = true →
      is2xx r.status = true → r.sessionHeader = some s → s ≠ "" →
      (postJsonrpc parse st msg (.resp r)).1.sessionId = some s)
  ∧ (∀ (st : St) (r : HttpResp), st.hasClient = true → is2xx r.status = true →
      r.sessionHeader = none →
      (postJsonrpc parse st msg (.resp r)).1.sessionId = st.sessionId)
  ∧ (∀ (st : St) (r₁ r₂ : HttpResp), st.hasClient = true →
      is2xx r₁.status = true → r₁.sessionHeader = some "sid1" →
      is2xx r₂.status = true → r₂.sessionHeader = some "sid2" →
      requestSessionHeader
          (postJsonrpc parse (postJsonrpc parse st msg (.resp r₁)).1 msg2 (.resp r₂)).1
        = some "sid2"
      ∧ (some "sid2" : Option String) ≠ some "sid1") := by
  refine ⟨?_, ?_, ?_, ?_, ?_⟩
  · intro st hs
    simp [requestSessionHeader, hs]
  · intro st s hs hne
    simp [requestSessionHeader, hs, hne]
  · intro st r s hcl h2 hsh hne
    rw [postJsonrpc_state_2xx parse st msg r hcl h2, hsh, captureSession_some st s hne]
  · intro st r hcl h2 hsh
    rw [postJsonrpc_state_2xx parse st msg r hcl h2, hsh]
    rfl
  · intro st r₁ r₂ hcl h1 hsh1 h2 hsh2
    have st1eq : (postJsonrpc parse st msg (.resp r₁)).1
        = { st with sessionId := some "sid1" } := by
      rw [postJsonrpc_state_2xx parse st msg r₁ hcl h1, hsh1,
          captureSession_some st "sid1" (by simp)]
    have hcl1 : (postJsonrpc parse st msg (.resp r₁)).1.hasClient = true := by
      rw [st1eq]
      exact hcl
    have st2eq : (postJsonrpc parse (postJsonrpc parse st msg (.resp r₁)).1 msg2
        (.resp r₂)).1 = { (postJsonrpc parse st msg (.resp r₁)).1 with sessionId := some "sid2" } := by
      rw [postJsonrpc_state_2xx parse _ msg2 r₂ hcl1 h2, hsh2,
          captureSession_some _ "sid2" (by simp)]
    rw [st2eq]
    exact ⟨by simp [requestSessionHeader], by simp⟩

/-- Witness for C8 (amended): the `"sid1"` → `"sid2"` handover on the
concrete connected client. -/
theorem c8_session_propagation_witness :
    requestSessionHeader
        (postJsonrpc sampleParse
          (postJsonrpc sampleParse stBase msgSample (.resp (okResp (some "sid1") (jobj [])))).1
          msgSample (.resp (okResp (some "sid2") (jobj [])))).1
      = some "sid2"
  ∧ (some "sid2" : Option String) ≠ some "sid1" := by
  exact (c8_session_propagation sampleParse msgSample msgSample).2.2.2.2 stBase
    (okResp (some "sid1") (jobj [])) (okResp (some "sid2") (jobj []))
    rfl rfl rfl rfl rfl

/-- Claim C9: `ensure_connected` runs a full connect (the three-step
handshake of `connect`) when the client is not alive, and also when it is
alive but no session token is held; when alive with a session token held it
does nothing. -/
theorem c9_ensure_connected (parse : String → Option J) (now : ℚ) (o : ConnOuts) (st : St) :
    (alive st = false →
      ensureConnected parse now o st =
        ((connect parse now o st).1, (connect parse now o st).2,
         [Ev.conn st.sessionId st.connected]))
  ∧ (alive st = true → st.sessionId = none →
      ensureConnected parse now o st =
        ((connect parse now o st).1, (connect parse now o st).2,
         [Ev.conn st.sessionId st.connected]))
  ∧ (∀ s, alive st = true → st.sessionId = some s →
      ensureConnected parse now o st = (st, .ok (), [])) := by
  refine ⟨?_, ?_, ?_⟩
  · intro hna
    unfold ensureConnected
    rw [if_pos (by simp [hna])]
  · intro ha hs
    obtain ⟨hc, -⟩ : st.connected = true ∧ st.hasClient = true := by
      simpa [alive, Bool.and_eq_true] using ha
    unfold ensureConnected
    rw [if_neg (by simp [ha]), if_pos (by simp [hs, hc])]
  · intro s ha hs
    unfold ensureConnected
    rw [if_neg (by simp [ha]), if_neg (by simp [hs])]

/-- Witness for C9: a dead client and an alive-but-sessionless client both
trigger a connect; the alive client holding `"sid0"` does not. -/
theorem c9_ensure_connected_witness :
    ensureConnected sampleParse 5 goodConnOuts (initState "http://localhost:3100/mcp" "streamable_http")
      = ((connect sampleParse 5 goodConnOuts (initState "http://localhost:3100/mcp" "streamable_http")).1,
         (connect sampleParse 5 goodConnOuts (initState "http://localhost:3100/mcp" "streamable_http")).2,
         [Ev.conn none false])
  ∧ ensureConnected sampleParse 5 goodConnOuts { stBase with sessionId := none }
      = ((connect sampleParse 5 goodConnOuts { stBase with sessionId := none }).1,
         (connect sampleParse 5 goodConnOuts { stBase with sessionId := none }).2,
         [Ev.conn none true])
  ∧ ensureConnected sampleParse 5 goodConnOuts stBase = (stBase, .ok (), []) := by
  refine ⟨?_, ?_, ?_⟩
  · exact (c9_ensure_connected sampleParse 5 goodConnOuts _).1 rfl
  · exact (c9_ensure_connected sampleParse 5 goodConnOuts _).2.1 rfl rfl
  · exact (c9_ensure_connected sampleParse 5 goodConnOuts stBase).2.2 "sid0" rfl rfl

/-- Claim C1: when the `tools/call` round trip inside `call_tool` fails with
a protocol-level error whose message matches the stale-session pattern, the
wrapper discards its session state (the reconnect is entered with
`_connected = False` and `_session_id = None`, as the `Ev.conn none false`
event records), performs exactly one full reconnect and reissues the
identical request exactly once, the outcome of the call being that of the
reissued round trip; when the message does not match the pattern, the error
propagates with zero reconnects and zero retries. -/
theorem c1_stale_session_retry (parse : String → Option J) (now : ℚ) (o : CallOuts)
    (name : String) (args : J) (st st1 : St) (ev0 : List Ev)
    (hEns : ensureConnected parse now o.ensureOuts st = (st1, .ok (), ev0)) :
    (∀ st2 m st4,
        sendReq parse st1 "tools/call" (jobj [("name", .str name), ("arguments", args)])
            o.firstOut = (st2, .error (.protocol m)) →
        staleSessionMsg m = true →
        connect parse now o.reconnOuts { st2 with connected := false, sessionId := none }
            = (st4, .ok ()) →
        callTool parse now o name args st =
          ((sendReq parse st4 "tools/call" (jobj [("name", .str name), ("arguments", args)])
              o.secondOut).1,
           (match (sendReq parse st4 "tools/call" (jobj [("name", .str name), ("arguments", args)])
               o.secondOut).2 with
            | .error e3 => .error e3
            | .ok resp => finalizeResp resp),
           ev0 ++ [Ev.call (requestSessionHeader st1) name args,
                   Ev.conn none false,
                   Ev.call (requestSessionHeader st4) name args]))
  ∧ (∀ st2 (e : MCPErr),
        sendReq parse st1 "tools/call" (jobj [("name", .str name), ("arguments", args)])
            o.firstOut = (st2, .error e) →
        staleSessionMsg e.message = false →
        callTool parse now o name args st =
          (st2, .error e, ev0 ++ [Ev.call (requestSessionHeader st1) name args])) := by
  constructor
  · intro st2 m st4 hSend hStale hConn
    unfold callTool
    rw [hEns]
    dsimp only
    rw [hSend]
    dsimp only [MCPErr.message]
    rw [if_pos hStale, hConn]
    dsimp only
    rcases hs2 : sendReq parse st4 "tools/call"
        (jobj [("name", .str name), ("arguments", args)]) o.secondOut with ⟨st5, r5⟩
    cases r5 <;> simp
  · intro st2 e hSend hStale
    unfold callTool
    rw [hEns]
    dsimp only
    rw [hSend]
    dsimp only
    rw [if_neg (by simp [hStale])]

/-- Witness for C1: on the connected client, a `"No valid session"` protocol
error triggers exactly one reconnect (entered with cleared session state)
and one identical reissue which then succeeds, while an `"Internal error"`
protocol error propagates with no reconnect and no retry. -/
theorem c1_stale_session_retry_witness :
    ((callTool sampleParse 5 calloutsStale "recall" (jobj []) stBase).2 =
      (.ok (jobj [("content", jarr [jobj [("type", .str "text"), ("text", .str "ok")]])]),
       [Ev.call (some "sid0") "recall" (jobj []), Ev.conn none false,
        Ev.call (some "sid1") "recall" (jobj [])]))
  ∧ ((callTool sampleParse 5 calloutsPlainErr "recall" (jobj []) stBase).2 =
      (.error (.protocol "MCP error -32603: Internal error"),
       [Ev.call (some "sid0") "recall" (jobj [])])) := by
  constructor
  · have h := (c1_stale_session_retry sampleParse 5 calloutsStale "recall" (jobj [])
        stBase stBase [] rfl).1 { stBase with reqId := 1 }
        "MCP error -32000: No valid session"
        { url := "http://localhost:3100/mcp", transport := "streamable_http", reqId := 3,
          hasClient := true, connected := true, connectedAt := 5, sessionId := some "sid1",
          toolsCaps := jarr [], toolNames := [] }
        rfl rfl rfl
    rw [h]
    rfl
  · have h := (c1_stale_session_retry sampleParse 5 calloutsPlainErr "recall" (jobj [])
        stBase stBase [] rfl).2 { stBase with reqId := 1 }
        (.protocol "MCP error -32603: Internal error") rfl rfl
    rw [h]
    rfl

/-- Claim C7: a `tools/call` round trip that completes at the protocol level
with a truthy `isError` makes `call_tool` raise `MCPToolError` — no
reconnect, no retry — whose message is the `content` fragments' texts
joined by single spaces. -/
theorem c7_tool_error (parse : String → Option J) (now : ℚ) (o : CallOuts)
    (name : String) (args : J) (st st1 st2 : St) (ev0 : List Ev) (resp : J)
    (hEns : ensureConnected parse now o.ensureOuts st = (st1, .ok (), ev0))
    (hSend : sendReq parse st1 "tools/call" (jobj [("name", .str name), ("arguments", args)])
        o.firstOut = (st2, .ok resp))
    (hErr : truthy (pyGet resp "isError") = true) :
    callTool parse now o name args st =
      (st2, .error (.tool (String.intercalate " " (contentTexts resp))),
       ev0 ++ [Ev.call (requestSessionHeader st1) name args]) := by
  unfold callTool
  rw [hEns]
  dsimp only
  rw [hSend]
  dsimp only
  unfold finalizeResp
  rw [if_pos hErr]

/-- Witness for C7: fragments `["a", "b"]` yield the message `"a b"`. -/
theorem c7_tool_error_witness :
    (callTool sampleParse 5 calloutsToolErr "recall" (jobj []) stBase).2 =
      (.error (.tool "a b"), [Ev.call (some "sid0") "recall" (jobj [])]) := by
  have h := c7_tool_error sampleParse 5 calloutsToolErr "recall" (jobj [])
    stBase stBase { stBase with reqId := 1 } [] toolErrResult rfl rfl rfl
  rw [h]
  rfl

/-- Claim C10: a `tools/call` round trip that succeeds at both the protocol
and the tool level makes `call_tool` return a mapping with exactly the one
key `content` holding the result's content member; a result object lacking
`content` entirely yields `{"content": []}` rather than failing. -/
theorem c10_content_normalization (parse : String → Option J) (now : ℚ) (o : CallOuts)
    (name : String) (args : J) (st st1 st2 : St) (ev0 : List Ev) (resp : J)
    (hEns : ensureConnected parse now o.ensureOuts st = (st1, .ok (), ev0))
    (hSend : sendReq parse st1 "tools/call" (jobj [("name", .str name), ("arguments", args)])
        o.firstOut = (st2, .ok resp))
    (hErr : truthy (pyGet resp "isError") = false) :
    (callTool parse now o name args st =
      (st2, .ok (jobj [("content", pyGetD resp "content" (jarr []))]),
       ev0 ++ [Ev.call (requestSessionHeader st1) name args]))
  ∧ (hasKey resp "content" = false → pyGetD resp "content" (jarr []) = jarr []) := by
  constructor
  · unfold callTool
    rw [hEns]
    dsimp only
    rw [hSend]
    dsimp only
    unfold finalizeResp
    rw [if_neg (by simp [hErr])]
  · intro hnc
    cases resp with
    | obj kvs =>
      unfold hasKey at hnc
      dsimp only at hnc
      unfold pyGetD
      dsimp only
      cases hl : kvs.lookup "content" with
      | none => rfl
      | some v => rw [hl] at hnc; simp at hnc
    | null => rfl
    | bool b => rfl
    | num n => rfl
    | str s => rfl
    | arr xs => rfl

/-- Witness for C10: a result object with no `content` member yields
`{"content": []}`. -/
theorem c10_content_normalization_witness :
    (callTool sampleParse 5 calloutsNoContent "recall" (jobj []) stBase).2 =
      (.ok (jobj [("content", jarr [])]), [Ev.call (some "sid0") "recall" (jobj [])]) := by
  have h := (c10_content_normalization sampleParse 5 calloutsNoContent "recall" (jobj [])
    stBase stBase { stBase with reqId := 1 } [] (jobj []) rfl rfl rfl).1
  rw [h]
  rfl
